import Mathlib

/-!
Shallow embedding of the `llm-sdk` Rust client library (src/lib.rs and
src/api/{create_image,embedding,speech,whisper}.rs) and proofs about the
claims on its request construction, serialization, dispatch and error
handling.

Modelling conventions:
* JSON bodies are modelled as association lists of key/`Json` pairs in the
  serde field order; `#[serde(skip_serializing_if = "Option::is_none")]`
  fields contribute nothing when `none`.
* Rust `f32` values (speech `speed`, whisper `temperature`) are modelled as
  `ℚ`; every claim about them concerns only field presence, never float
  arithmetic.
* The network transport is external: each SDK operation is modelled as its
  post-send response handling, a function of the `HttpResponse` the
  transport produced.  JSON (de)serialization mechanics are external per the
  spec, so a response carries both its raw body text and the result of
  JSON-parsing that text (`none` when the body is not valid JSON).
-/

namespace LlmSdk

/-- Minimal JSON value model, sufficient for the request/response bodies of
this library.  Numbers are modelled as `ℚ`. -/
inductive Json where
  | null : Json
  | bool : Bool → Json
  | num : ℚ → Json
  | str : String → Json
  | arr : List Json → Json
  | obj : List (String × Json) → Json
deriving Repr

/-- First value bound to `key` in a serialized JSON object. -/
def findKey (key : String) : List (String × Json) → Option Json
  | [] => none
  | (k, v) :: rest => if k = key then some v else findKey key rest

/-- serde emits a key for an `Option` field only when it is `Some`
(`skip_serializing_if = "Option::is_none"`). -/
def optField (key : String) : Option Json → List (String × Json)
  | none => []
  | some v => [(key, v)]

/-! ## Wire enums (src/api/create_image.rs, speech.rs, whisper.rs, embedding.rs)

Each Rust enum is a closed set of variants; `wire` is its serialization to
the exact wire string (serde `rename`/`rename_all = "snake_case"` attributes,
or the strum `Display` used by the multipart form code). -/

inductive ImageModel where
  | DallE3
deriving Repr, DecidableEq

def ImageModel.wire : ImageModel → String
  | .DallE3 => "dall-e-3"

inductive ImageQuality where
  | Standard
  | Hd
deriving Repr, DecidableEq

def ImageQuality.wire : ImageQuality → String
  | .Standard => "standard"
  | .Hd => "hd"

inductive ImageResponseFormat where
  | Url
  | B64Json
deriving Repr, DecidableEq

def ImageResponseFormat.wire : ImageResponseFormat → String
  | .Url => "url"
  | .B64Json => "b64_json"

inductive ImageSize where
  | Large
  | LargeWide
  | LargeTall
deriving Repr, DecidableEq

def ImageSize.wire : ImageSize → String
  | .Large => "1024x1024"
  | .LargeWide => "1792x1024"
  | .LargeTall => "1024x1792"

inductive ImageStyle where
  | Vivid
  | Natural
deriving Repr, DecidableEq

def ImageStyle.wire : ImageStyle → String
  | .Vivid => "vivid"
  | .Natural => "natural"

inductive SpeechModel where
  | Tts1
  | Tts1Hd
deriving Repr, DecidableEq

def SpeechModel.wire : SpeechModel → String
  | .Tts1 => "tts-1"
  | .Tts1Hd => "tts-1-hd"

inductive SpeechVoice where
  | Alloy
  | Echo
  | Fable
  | Onyx
  | Nova
  | Shimmer
deriving Repr, DecidableEq

def SpeechVoice.wire : SpeechVoice → String
  | .Alloy => "alloy"
  | .Echo => "echo"
  | .Fable => "fable"
  | .Onyx => "onyx"
  | .Nova => "nova"
  | .Shimmer => "shimmer"

inductive SpeechResponseFormat where
  | Mp3
  | Opus
  | Aac
  | Flac
deriving Repr, DecidableEq

def SpeechResponseFormat.wire : SpeechResponseFormat → String
  | .Mp3 => "mp3"
  | .Opus => "opus"
  | .Aac => "aac"
  | .Flac => "flac"

inductive WhisperModel where
  | Whisper1
deriving Repr, DecidableEq

/-- strum `Display` with `serialize = "whisper-1"`; this is what
`into_form` puts on the wire via `self.model.to_string()`. -/
def WhisperModel.wire : WhisperModel → String
  | .Whisper1 => "whisper-1"

inductive WhisperResponseFormat where
  | Json
  | Text
  | Srt
  | VerboseJson
  | Vtt
deriving Repr, DecidableEq

/-- strum `Display` with `serialize_all = "snake_case"`. -/
def WhisperResponseFormat.wire : WhisperResponseFormat → String
  | .Json => "json"
  | .Text => "text"
  | .Srt => "srt"
  | .VerboseJson => "verbose_json"
  | .Vtt => "vtt"

inductive WhisperRequestType where
  | Transcription
  | Translation
deriving Repr, DecidableEq

inductive EmbeddingModel where
  | TextEmbeddingAda002
deriving Repr, DecidableEq

def EmbeddingModel.wire : EmbeddingModel → String
  | .TextEmbeddingAda002 => "text-embedding-ada-002"

inductive EmbeddingEncodingFormat where
  | Float
  | Base64
deriving Repr, DecidableEq

def EmbeddingEncodingFormat.wire : EmbeddingEncodingFormat → String
  | .Float => "float"
  | .Base64 => "base64"

/-! ## Request values (builder defaults are the structure field defaults) -/

/-- src/api/create_image.rs `CreateImageRequest`. -/
structure CreateImageRequest where
  prompt : String
  model : ImageModel := .DallE3
  n : Option ℕ := none
  quality : Option ImageQuality := none
  response_format : Option ImageResponseFormat := none
  size : Option ImageSize := none
  style : Option ImageStyle := none
  user : Option String := none
deriving Repr

/-- `CreateImageRequest::new(prompt)`: builder with only `prompt` set. -/
def CreateImageRequest.new (prompt : String) : CreateImageRequest :=
  { prompt := prompt }

/-- serde `Serialize` for `CreateImageRequest`: fields in declaration order,
`Option` fields skipped when `none`. -/
def CreateImageRequest.serialize (r : CreateImageRequest) : List (String × Json) :=
  [("prompt", .str r.prompt), ("model", .str r.model.wire)]
    ++ optField "n" (r.n.map fun k => .num k)
    ++ optField "quality" (r.quality.map fun q => .str q.wire)
    ++ optField "response_format" (r.response_format.map fun f => .str f.wire)
    ++ optField "size" (r.size.map fun s => .str s.wire)
    ++ optField "style" (r.style.map fun s => .str s.wire)
    ++ optField "user" (r.user.map fun u => .str u)

/-- src/api/speech.rs `SpeechRequest`. -/
structure SpeechRequest where
  model : SpeechModel := .Tts1
  input : String
  voice : SpeechVoice := .Nova
  response_format : SpeechResponseFormat := .Mp3
  speed : Option ℚ := none
deriving Repr

/-- `SpeechRequest::new(input)`: builder with only `input` set. -/
def SpeechRequest.new (input : String) : SpeechRequest :=
  { input := input }

/-- serde `Serialize` for `SpeechRequest`. -/
def SpeechRequest.serialize (r : SpeechRequest) : List (String × Json) :=
  [("model", .str r.model.wire), ("input", .str r.input),
   ("voice", .str r.voice.wire), ("response_format", .str r.response_format.wire)]
    ++ optField "speed" (r.speed.map fun s => .num s)

/-- src/api/embedding.rs `EmbeddingInput` (serde `untagged`). -/
inductive EmbeddingInput where
  | string : String → EmbeddingInput
  | stringArray : List String → EmbeddingInput
deriving Repr

def EmbeddingInput.serialize : EmbeddingInput → Json
  | .string s => .str s
  | .stringArray ss => .arr (ss.map .str)

/-- src/api/embedding.rs `EmbeddingRequest`. -/
structure EmbeddingRequest where
  input : EmbeddingInput
  model : EmbeddingModel := .TextEmbeddingAda002
  encoding_format : Option EmbeddingEncodingFormat := none
  user : Option String := none
deriving Repr

/-- `EmbeddingRequest::new(input)`: builder with only `input` set. -/
def EmbeddingRequest.new (input : EmbeddingInput) : EmbeddingRequest :=
  { input := input }

/-- serde `Serialize` for `EmbeddingRequest`. -/
def EmbeddingRequest.serialize (r : EmbeddingRequest) : List (String × Json) :=
  [("input", r.input.serialize), ("model", .str r.model.wire)]
    ++ optField "encoding_format" (r.encoding_format.map fun f => .str f.wire)
    ++ optField "user" (r.user.map fun u => .str u)

/-- src/api/whisper.rs `WhisperRequest`.  The audio bytes (`Vec<u8>`) are a
list of naturals; `temperature : f32` is modelled as `ℚ`. -/
structure WhisperRequest where
  file : List ℕ
  model : WhisperModel := .Whisper1
  language : Option String := none
  prompt : Option String := none
  response_format : WhisperResponseFormat := .Json
  temperature : Option ℚ := none
  request_type : WhisperRequestType
deriving Repr

/-- `WhisperRequest::transcription(data)`. -/
def WhisperRequest.transcription (data : List ℕ) : WhisperRequest :=
  { file := data, request_type := .Transcription }

/-- `WhisperRequest::translation(data)`. -/
def WhisperRequest.translation (data : List ℕ) : WhisperRequest :=
  { file := data, request_type := .Translation }

/-- One part of a multipart form: either a named file part with a file name,
a MIME type and the byte payload, or a named text field. -/
inductive FormPart where
  | filePart (name fileName mimeType : String) (bytes : List ℕ)
  | textPart (name value : String)
deriving Repr, DecidableEq

/-- `WhisperRequest::into_form` (src/api/whisper.rs:79-103): file part named
"file" with file name "file.mp3" and MIME "audio/mp3", then `model` and
`response_format` text fields, then `language` only for a transcription with
a language set, then `prompt` and `temperature` only when present. -/
def WhisperRequest.into_form (r : WhisperRequest) : List FormPart :=
  let form := [FormPart.filePart "file" "file.mp3" "audio/mp3" r.file,
               FormPart.textPart "model" r.model.wire,
               FormPart.textPart "response_format" r.response_format.wire]
  let form := match r.request_type, r.language with
    | .Transcription, some language => form ++ [FormPart.textPart "language" language]
    | _, _ => form
  let form := match r.prompt with
    | some prompt => form ++ [FormPart.textPart "prompt" prompt]
    | none => form
  match r.temperature with
  | some temperature => form ++ [FormPart.textPart "temperature" (toString temperature)]
  | none => form

/-- Whether the form has a text field named `name`. -/
def hasTextField (form : List FormPart) (name : String) : Bool :=
  form.any fun p => match p with
    | .textPart n _ => n = name
    | _ => false

/-- First value of the text field named `name`. -/
def findTextField (name : String) : List FormPart → Option String
  | [] => none
  | .textPart n v :: rest => if n = name then some v else findTextField name rest
  | _ :: rest => findTextField name rest

/-! ## Outbound HTTP requests and the `IntoRequest` adapters -/

/-- Body of an outbound request: a serialized JSON object or a multipart
form. -/
inductive HttpBody where
  | jsonBody : List (String × Json) → HttpBody
  | multipartBody : List FormPart → HttpBody
deriving Repr

/-- An outbound HTTP request as assembled by the adapter and the client
(method, URL, body, headers in attachment order, optional timeout in
seconds). -/
structure HttpRequest where
  method : String
  url : String
  body : HttpBody
  headers : List (String × String) := []
  timeout : Option ℕ := none
deriving Repr

/-- `IntoRequest for CreateImageRequest`: POST `{base_url}/images/generations`
with the JSON body. -/
def CreateImageRequest.into_request (r : CreateImageRequest) (base_url : String) : HttpRequest :=
  { method := "POST", url := base_url ++ "/images/generations", body := .jsonBody r.serialize }

/-- `IntoRequest for SpeechRequest`: POST `{base_url}/audio/speech`. -/
def SpeechRequest.into_request (r : SpeechRequest) (base_url : String) : HttpRequest :=
  { method := "POST", url := base_url ++ "/audio/speech", body := .jsonBody r.serialize }

/-- `IntoRequest for EmbeddingRequest`: POST `{base_url}/embeddings`. -/
def EmbeddingRequest.into_request (r : EmbeddingRequest) (base_url : String) : HttpRequest :=
  { method := "POST", url := base_url ++ "/embeddings", body := .jsonBody r.serialize }

/-- `IntoRequest for WhisperRequest` (src/api/whisper.rs:106-114): the path is
selected by the `request_type` discriminator alone; the body is the multipart
form. -/
def WhisperRequest.into_request (r : WhisperRequest) (base_url : String) : HttpRequest :=
  let url := match r.request_type with
    | .Transcription => base_url ++ "/audio/transcriptions"
    | .Translation => base_url ++ "/audio/translations"
  { method := "POST", url := url, body := .multipartBody r.into_form }

/-! ## The dispatch client (src/lib.rs) -/

/-- `const TIMEOUT: u64 = 30` (seconds). -/
def TIMEOUT : ℕ := 30

/-- `const MAX_RETRIES: u32 = 3`. -/
def MAX_RETRIES : ℕ := 3

/-- The fixed user-agent string of `prepare_request`. -/
def userAgent : String :=
  "Mozilla/5.0 (Windows NT 10.0; Win64; x64) AppleWebKit/537.36 (KHTML, like Gecko) Chrome/129.0.0.0 Safari/537.36"

/-- The HTTP transport with its middleware stack, abstracted to the two facts
the claims depend on: whether the retry middleware in the stack actually
performs retries, and the maximum retry count its exponential-backoff policy
was built with. -/
structure ClientModel where
  performsRetries : Bool
  policyMaxRetries : ℕ
deriving Repr, DecidableEq

/-- `LlmSDKBuilder::default_client` (src/lib.rs:46-63): builds an
exponential-backoff policy with `max_retries.unwrap_or(MAX_RETRIES)` and
wraps the transport in `RetryMiddleware::from(m)`.

Modelled from the spec: `src/middleware.rs` (the custom `RetryMiddleware`
wrapper) is not under `src/`.  Per the source's own note at this call site
("fixme Method new1 can run to retry, but new can't", src/lib.rs:70) and the
spec's design note that one constructor's retry configuration "does not
actually take effect due to how the default transport is built", the wrapped
middleware does not perform retries: `performsRetries := false`. -/
def LlmSDKBuilder.default_client (max_retries : Option ℕ) : ClientModel :=
  { performsRetries := false, policyMaxRetries := max_retries.getD MAX_RETRIES }

/-- src/lib.rs `LlmSDK`: base URL, token, the (dead-code) `max_retries` field
and the transport client. -/
structure LlmSDK where
  base_url : String
  token : String
  max_retries : ℕ
  client : ClientModel
deriving Repr, DecidableEq

/-- `LlmSDK::new(token)`: builder defaults — production base URL,
`max_retries = 3`, client from `default_client` with `max_retries` unset. -/
def LlmSDK.new (token : String) : LlmSDK :=
  { base_url := "https://api.openai.com/v1", token := token,
    max_retries := MAX_RETRIES, client := LlmSDKBuilder.default_client none }

/-- `LlmSDK::new1(base_url, token, max_retries)` (src/lib.rs:71-84): builds a
retrying transport with a policy using the `max_retries` argument, but stores
the literal `3` in the struct's `max_retries` field. -/
def LlmSDK.new1 (base_url token : String) (max_retries : ℕ) : LlmSDK :=
  { base_url := base_url, token := token, max_retries := 3,
    client := { performsRetries := true, policyMaxRetries := max_retries } }

/-- `LlmSDK::new_with_base_url(token, base_url)`: builder defaults with the
base URL overridden. -/
def LlmSDK.new_with_base_url (token base_url : String) : LlmSDK :=
  { base_url := base_url, token := token,
    max_retries := MAX_RETRIES, client := LlmSDKBuilder.default_client none }

/-- `LlmSDK::prepare_request` (src/lib.rs:134-143): if the token is empty the
request is passed through unchanged; otherwise bearer auth AND the user-agent
header are attached (both inside the same non-empty branch); the 30-second
timeout is applied in every case. -/
def LlmSDK.prepare_request (sdk : LlmSDK) (req : HttpRequest) : HttpRequest :=
  let req := if sdk.token.isEmpty then req
    else { req with headers := req.headers ++
            [("authorization", "Bearer " ++ sdk.token), ("user-agent", userAgent)] }
  { req with timeout := some TIMEOUT }

/-- Whether the request carries a header named `name`. -/
def hasHeader (req : HttpRequest) (name : String) : Bool :=
  req.headers.any fun p => p.1 = name

/-- First value of the header named `name`. -/
def findHeader (req : HttpRequest) (name : String) : Option String :=
  (req.headers.find? fun p => p.1 = name).map Prod.snd

/-! ## Responses, status checking and the per-operation handlers -/

/-- An HTTP response after a successful transport-level send.  `bodyJson` is
the result of JSON-parsing the raw body text (serde mechanics are external
per the spec): `none` when the body is not valid JSON. -/
structure HttpResponse where
  status : ℕ
  body : String
  bodyJson : Option Json := none

/-- `StatusCode::is_client_error`. -/
def is_client_error (status : ℕ) : Bool := 400 ≤ status && status ≤ 499

/-- `StatusCode::is_server_error`. -/
def is_server_error (status : ℕ) : Bool := 500 ≤ status && status ≤ 599

/-- `SendAndLog for RequestBuilder` (src/lib.rs:150-161): on a 4xx/5xx status
the call fails with an error carrying the full body text; otherwise the
response is passed on. -/
def send_and_log (res : HttpResponse) : Except String HttpResponse :=
  if is_client_error res.status || is_server_error res.status then
    .error ("API failed: " ++ res.body)
  else
    .ok res

/-! ## Typed responses and their serde `Deserialize` over parsed JSON -/

def Json.asString : Json → Option String
  | .str s => some s
  | _ => none

/-- serde deserialization of an unsigned integer field. -/
def Json.asNat : Json → Option ℕ
  | .num q => if q.den = 1 && 0 ≤ q.num then some q.num.toNat else none
  | _ => none

/-- serde deserialization of an `Option<String>` field: a missing key or a
JSON null is `None`; a string is `Some`; anything else fails. -/
def parseOptStr : Option Json → Option (Option String)
  | none => some none
  | some .null => some none
  | some (.str s) => some (some s)
  | some _ => none

/-- src/api/whisper.rs `WhisperResponse`. -/
structure WhisperResponse where
  text : String
deriving Repr, DecidableEq

/-- `Deserialize` for `WhisperResponse`: an object with a string `text`. -/
def parseWhisperResponse (j : Json) : Option WhisperResponse :=
  match j with
  | .obj fields => (findKey "text" fields).bind fun v => v.asString.map WhisperResponse.mk
  | _ => none

/-- src/api/create_image.rs `ImageObject`. -/
structure ImageObject where
  b64_json : Option String
  url : Option String
  revised_prompt : String
deriving Repr, DecidableEq

/-- `Deserialize` for `ImageObject`. -/
def parseImageObject (j : Json) : Option ImageObject :=
  match j with
  | .obj fields => do
    let b64 ← parseOptStr (findKey "b64_json" fields)
    let u ← parseOptStr (findKey "url" fields)
    let rp ← (findKey "revised_prompt" fields).bind Json.asString
    some { b64_json := b64, url := u, revised_prompt := rp }
  | _ => none

/-- src/api/create_image.rs `CreateImageResponse`. -/
structure CreateImageResponse where
  created : ℕ
  data : List ImageObject
deriving Repr, DecidableEq

/-- `Deserialize` for `CreateImageResponse`. -/
def parseCreateImageResponse (j : Json) : Option CreateImageResponse :=
  match j with
  | .obj fields => do
    let created ← (findKey "created" fields).bind Json.asNat
    let dataJson ← match findKey "data" fields with
      | some (.arr xs) => some xs
      | _ => none
    let data ← dataJson.mapM parseImageObject
    some { created := created, data := data }
  | _ => none

/-- src/api/embedding.rs `EmbeddingUsage`. -/
structure EmbeddingUsage where
  prompt_tokens : ℕ
  total_tokens : ℕ
deriving Repr, DecidableEq

/-- src/api/embedding.rs `EmbeddingData` (the embedding vector's `f32`
entries are modelled as `ℚ`). -/
structure EmbeddingData where
  index : ℕ
  embedding : List ℚ
  object : String
deriving Repr, DecidableEq

/-- src/api/embedding.rs `EmbeddingResponse`. -/
structure EmbeddingResponse where
  object : String
  data : List EmbeddingData
  model : String
  usage : EmbeddingUsage
deriving Repr, DecidableEq

def Json.asRat : Json → Option ℚ
  | .num q => some q
  | _ => none

/-- `Deserialize` for `EmbeddingData`. -/
def parseEmbeddingData (j : Json) : Option EmbeddingData :=
  match j with
  | .obj fields => do
    let index ← (findKey "index" fields).bind Json.asNat
    let embJson ← match findKey "embedding" fields with
      | some (.arr xs) => some xs
      | _ => none
    let embedding ← embJson.mapM Json.asRat
    let object ← (findKey "object" fields).bind Json.asString
    some { index := index, embedding := embedding, object := object }
  | _ => none

/-- `Deserialize` for `EmbeddingUsage`. -/
def parseEmbeddingUsage (j : Json) : Option EmbeddingUsage :=
  match j with
  | .obj fields => do
    let pt ← (findKey "prompt_tokens" fields).bind Json.asNat
    let tt ← (findKey "total_tokens" fields).bind Json.asNat
    some { prompt_tokens := pt, total_tokens := tt }
  | _ => none

/-- `Deserialize` for `EmbeddingResponse`. -/
def parseEmbeddingResponse (j : Json) : Option EmbeddingResponse :=
  match j with
  | .obj fields => do
    let object ← (findKey "object" fields).bind Json.asString
    let dataJson ← match findKey "data" fields with
      | some (.arr xs) => some xs
      | _ => none
    let data ← dataJson.mapM parseEmbeddingData
    let model ← (findKey "model" fields).bind Json.asString
    let usage ← (findKey "usage" fields).bind parseEmbeddingUsage
    some { object := object, data := data, model := model, usage := usage }
  | _ => none

/-- Modelled from the spec: `src/api/chat_completion.rs` is not under `src/`
(only its caller `LlmSDK::chat_completion` in src/lib.rs is).  The spec says
chat completion returns a parsed, typed result; its payload is modelled as
the parsed JSON body. -/
structure ChatCompletionResponse where
  payload : Json
deriving Repr

/-! ## Per-operation post-send handling (`LlmSDK` methods, src/lib.rs:94-132)

Each SDK method, after the transport produced an `HttpResponse`, handles it
as the Rust code does.  `res.json::<T>()` is `bodyJson` (the JSON parse of
the body) fed to `T`'s deserializer, failing when either step fails;
`res.text()` / `res.bytes()` is the raw body. -/

/-- `LlmSDK::chat_completion` (src/lib.rs:94-101): `send_and_log`, then
parse the body as JSON. -/
def LlmSDK.chat_completion (res : HttpResponse) : Except String ChatCompletionResponse :=
  match send_and_log res with
  | .error e => .error e
  | .ok r =>
    match r.bodyJson with
    | some j => .ok { payload := j }
    | none => .error "error decoding response body"

/-- `LlmSDK::create_image` (src/lib.rs:103-107): plain `send()` with NO
`send_and_log` — the status is never inspected; the body is deserialized as
`CreateImageResponse` whatever the status was. -/
def LlmSDK.create_image (res : HttpResponse) : Except String CreateImageResponse :=
  match res.bodyJson.bind parseCreateImageResponse with
  | some v => .ok v
  | none => .error "error decoding response body"

/-- `LlmSDK::speech` (src/lib.rs:109-113): `send_and_log`, then the raw body
bytes. -/
def LlmSDK.speech (res : HttpResponse) : Except String String :=
  match send_and_log res with
  | .error e => .error e
  | .ok r => .ok r.body

/-- `LlmSDK::whisper` (src/lib.rs:115-126): `send_and_log`; then JSON-parse
only when the request's `response_format` was the `Json` variant, otherwise
wrap the body text verbatim. -/
def LlmSDK.whisper (fmt : WhisperResponseFormat) (res : HttpResponse) :
    Except String WhisperResponse :=
  match send_and_log res with
  | .error e => .error e
  | .ok r =>
    if fmt = WhisperResponseFormat.Json then
      match r.bodyJson.bind parseWhisperResponse with
      | some v => .ok v
      | none => .error "error decoding response body"
    else
      .ok { text := r.body }

/-- `LlmSDK::embedding` (src/lib.rs:128-132): `send_and_log`, then the RAW
body bytes (`res.bytes()`), not a parse into `EmbeddingResponse`. -/
def LlmSDK.embedding (res : HttpResponse) : Except String String :=
  match send_and_log res with
  | .error e => .error e
  | .ok r => .ok r.body

/-- Follows the spec's words, for comparison with `LlmSDK.embedding`:
"full JSON deserialization for structured responses" — the embedding
operation returning the fully deserialized `EmbeddingResponse`. -/
def embedding_fromSpec (res : HttpResponse) : Except String EmbeddingResponse :=
  match send_and_log res with
  | .error e => .error e
  | .ok r =>
    match r.bodyJson.bind parseEmbeddingResponse with
    | some v => .ok v
    | none => .error "error decoding response body"

/-- Whether an `Except` result is a success. -/
def isOkE {ε α : Type} : Except ε α → Bool
  | .ok _ => true
  | .error _ => false

/-! ## Retry middleware model (src/lib.rs middleware stack)

The transport is a function from the attempt index to the HTTP status that
attempt observes.  A network-level failure is also "transient"; statuses
suffice for the claims, so attempts yield statuses. -/

/-- Transient-failure criterion of the retry layer: 5xx-class (and network
errors, not modelled as they never appear in the claims' scenarios). -/
def isTransientStatus (status : ℕ) : Bool := 500 ≤ status && status ≤ 599

/-- Modelled from the spec: exponential backoff (the `reqwest-retry` crate is
an external collaborator; the spec specifies only "increasing delay between
successive retry attempts, here exponential").  Delay in seconds before retry
number `n`. -/
def backoffDelay (n : ℕ) : ℕ := 2 ^ n

/-- Run attempts against the transport: attempt `attempt` is made; on a
transient status, retry while retry budget remains.  Returns the number of
attempts performed and the final status. -/
def retryRun (t : ℕ → ℕ) : ℕ → ℕ → ℕ × ℕ
  | budget, attempt =>
    let s := t attempt
    if isTransientStatus s then
      match budget with
      | 0 => (attempt + 1, s)
      | b + 1 => retryRun t b (attempt + 1)
    else
      (attempt + 1, s)

/-- Dispatch through the client's middleware stack: a retrying client makes
up to `policyMaxRetries` retries; a non-retrying one performs the single
attempt. -/
def ClientModel.dispatch (c : ClientModel) (t : ℕ → ℕ) : ℕ × ℕ :=
  if c.performsRetries then retryRun t c.policyMaxRetries 0 else (1, t 0)

/-- The spec's mock transport: 500 three times, then 200. -/
def mockTransport (i : ℕ) : ℕ := if i < 3 then 500 else 200

/-! ## Theorems about the claims -/

theorem findKey_append (key : String) (xs ys : List (String × Json)) :
    findKey key (xs ++ ys) = ((findKey key xs).orElse fun _ => findKey key ys) := by
  induction xs with
  | nil => simp [findKey]
  | cons a rest ih =>
    obtain ⟨k, v⟩ := a
    by_cases h : k = key <;> simp [findKey, h, ih]

theorem isSome_orElse {α : Type} (a b : Option α) :
    (a.orElse fun _ => b).isSome = (a.isSome || b.isSome) := by
  cases a <;> simp [Option.orElse]

theorem isSome_findKey_optField (key k2 : String) (v : Option Json) :
    (findKey key (optField k2 v)).isSome = (decide (k2 = key) && v.isSome) := by
  cases v <;> by_cases h : k2 = key <;> simp [optField, findKey, h]

theorem isSome_bind_some {α β : Type} (o : Option α) (f : α → β) :
    (o.bind fun a => some (f a)).isSome = o.isSome := by
  cases o <;> rfl

theorem send_and_log_ok (res : HttpResponse)
    (hc : is_client_error res.status = false) (hs : is_server_error res.status = false) :
    send_and_log res = .ok res := by
  simp [send_and_log, hc, hs]

/-- C7: every enum-typed wire value serializes to exactly its declared
case-sensitive wire string — image sizes, quality, style, speech voices,
speech formats, the whisper model and the embedding model — and no other
wire value is producible from any variant. -/
theorem claim_C7_wire_enum_mapping :
    (ImageSize.Large.wire = "1024x1024" ∧ ImageSize.LargeWide.wire = "1792x1024" ∧
      ImageSize.LargeTall.wire = "1024x1792") ∧
    (ImageQuality.Standard.wire = "standard" ∧ ImageQuality.Hd.wire = "hd") ∧
    (ImageStyle.Vivid.wire = "vivid" ∧ ImageStyle.Natural.wire = "natural") ∧
    (SpeechVoice.Alloy.wire = "alloy" ∧ SpeechVoice.Echo.wire = "echo" ∧
      SpeechVoice.Fable.wire = "fable" ∧ SpeechVoice.Onyx.wire = "onyx" ∧
      SpeechVoice.Nova.wire = "nova" ∧ SpeechVoice.Shimmer.wire = "shimmer") ∧
    (SpeechResponseFormat.Mp3.wire = "mp3" ∧ SpeechResponseFormat.Opus.wire = "opus" ∧
      SpeechResponseFormat.Aac.wire = "aac" ∧ SpeechResponseFormat.Flac.wire = "flac") ∧
    (WhisperModel.Whisper1.wire = "whisper-1") ∧
    (EmbeddingModel.TextEmbeddingAda002.wire = "text-embedding-ada-002") ∧
    (∀ v : ImageSize, v.wire ∈ ["1024x1024", "1792x1024", "1024x1792"]) ∧
    (∀ v : ImageQuality, v.wire ∈ ["standard", "hd"]) ∧
    (∀ v : ImageStyle, v.wire ∈ ["vivid", "natural"]) ∧
    (∀ v : SpeechVoice, v.wire ∈ ["alloy", "echo", "fable", "onyx", "nova", "shimmer"]) ∧
    (∀ v : SpeechResponseFormat, v.wire ∈ ["mp3", "opus", "aac", "flac"]) ∧
    (∀ v : WhisperModel, v.wire = "whisper-1") ∧
    (∀ v : EmbeddingModel, v.wire = "text-embedding-ada-002") := by
  refine ⟨⟨rfl, rfl, rfl⟩, ⟨rfl, rfl⟩, ⟨rfl, rfl⟩, ⟨rfl, rfl, rfl, rfl, rfl, rfl⟩,
    ⟨rfl, rfl, rfl, rfl⟩, rfl, rfl, ?_, ?_, ?_, ?_, ?_, ?_, ?_⟩ <;>
    intro v <;> cases v <;> simp [ImageSize.wire, ImageQuality.wire, ImageStyle.wire,
      SpeechVoice.wire, SpeechResponseFormat.wire, WhisperModel.wire, EmbeddingModel.wire]

/-- C8: for every `Option`-typed optional field of the JSON-bodied request
types (`CreateImageRequest`'s n, quality, response_format, size, style, user;
`SpeechRequest`'s speed; `EmbeddingRequest`'s encoding_format, user), the
serialized body has a key for the field exactly when the field is set — an
unset field's key is omitted entirely. -/
theorem claim_C8_optional_fields_omitted :
    ∀ (r : CreateImageRequest) (s : SpeechRequest) (e : EmbeddingRequest),
      ((findKey "n" r.serialize).isSome = r.n.isSome) ∧
      ((findKey "quality" r.serialize).isSome = r.quality.isSome) ∧
      ((findKey "response_format" r.serialize).isSome = r.response_format.isSome) ∧
      ((findKey "size" r.serialize).isSome = r.size.isSome) ∧
      ((findKey "style" r.serialize).isSome = r.style.isSome) ∧
      ((findKey "user" r.serialize).isSome = r.user.isSome) ∧
      ((findKey "speed" s.serialize).isSome = s.speed.isSome) ∧
      ((findKey "encoding_format" e.serialize).isSome = e.encoding_format.isSome) ∧
      ((findKey "user" e.serialize).isSome = e.user.isSome) := by
  intro r s e
  refine ⟨?_, ?_, ?_, ?_, ?_, ?_, ?_, ?_, ?_⟩ <;>
    simp [CreateImageRequest.serialize, SpeechRequest.serialize, EmbeddingRequest.serialize,
      findKey_append, isSome_orElse, isSome_findKey_optField, findKey, isSome_bind_some]

/-- C9: `LlmSDK::new1(base_url, token, n)` stores the literal 3 in the
`max_retries` field regardless of the argument `n`, while the retry policy of
the transport it builds uses `n`; for `n ≠ 3` the stored field and the
effective policy disagree. -/
theorem claim_C9_new1_stores_three :
    ∀ (base_url token : String) (n : ℕ),
      (LlmSDK.new1 base_url token n).max_retries = 3 ∧
      (LlmSDK.new1 base_url token n).client.policyMaxRetries = n ∧
      (n ≠ 3 →
        (LlmSDK.new1 base_url token n).max_retries ≠
          (LlmSDK.new1 base_url token n).client.policyMaxRetries) := by
  intro b t n
  refine ⟨rfl, rfl, fun hn h => hn ?_⟩
  simpa [LlmSDK.new1] using h.symm

/-- Witness for C9 at `n = 5`: the stored field and the policy disagree. -/
theorem claim_C9_new1_stores_three_witness :
    (LlmSDK.new1 "https://example.com" "tok" 5).max_retries ≠
      (LlmSDK.new1 "https://example.com" "tok" 5).client.policyMaxRetries :=
  (claim_C9_new1_stores_three "https://example.com" "tok" 5).2.2 (by decide)

/-- C10: non-`Option` defaulted fields are always transmitted: every JSON
request body contains a `model` key; the speech body always contains `voice`
and `response_format`; the whisper multipart form always contains `model` and
`response_format` text fields; and the convenience constructors transmit the
client-side defaults ("dall-e-3", "tts-1", "nova", "mp3",
"text-embedding-ada-002", "whisper-1", "json") explicitly. -/
theorem claim_C10_defaults_transmitted :
    ∀ (r : CreateImageRequest) (s : SpeechRequest) (e : EmbeddingRequest)
      (w : WhisperRequest) (p i : String) (d : List ℕ),
      findKey "model" r.serialize = some (.str r.model.wire) ∧
      findKey "model" (CreateImageRequest.new p).serialize = some (.str "dall-e-3") ∧
      findKey "model" s.serialize = some (.str s.model.wire) ∧
      findKey "voice" s.serialize = some (.str s.voice.wire) ∧
      findKey "response_format" s.serialize = some (.str s.response_format.wire) ∧
      findKey "model" (SpeechRequest.new i).serialize = some (.str "tts-1") ∧
      findKey "voice" (SpeechRequest.new i).serialize = some (.str "nova") ∧
      findKey "response_format" (SpeechRequest.new i).serialize = some (.str "mp3") ∧
      findKey "model" e.serialize = some (.str e.model.wire) ∧
      findKey "model" (EmbeddingRequest.new (.string i)).serialize =
        some (.str "text-embedding-ada-002") ∧
      findTextField "model" w.into_form = some w.model.wire ∧
      findTextField "response_format" w.into_form = some w.response_format.wire ∧
      findTextField "model" (WhisperRequest.transcription d).into_form = some "whisper-1" ∧
      findTextField "response_format" (WhisperRequest.transcription d).into_form =
        some "json" := by
  intro r s e w p i d
  obtain ⟨wf, wm, wl, wp, wrf, wt, wrt⟩ := w
  refine ⟨rfl, rfl, rfl, rfl, rfl, rfl, rfl, rfl, rfl, rfl, ?_, ?_, rfl, rfl⟩ <;>
    cases wrt <;> cases wl <;> cases wp <;> cases wt <;> rfl

/-- A concrete outbound request used to instantiate universally quantified
theorems: a default image generation request against the production URL. -/
def sampleRequest : HttpRequest :=
  (CreateImageRequest.new "a cute cat").into_request "https://api.openai.com/v1"

/-- C3 counterexample: with an empty configured token (a valid,
unauthenticated configuration), the prepared request carries NO user-agent
header — so the fixed user-agent is not attached "regardless of the
configured token" as the claim states. -/
theorem claim_C3_counterexample :
    hasHeader ((LlmSDK.new1 "https://api.openai.com/v1" "" 3).prepare_request sampleRequest)
      "user-agent" = false := by
  rfl

/-- C3 amended: every dispatched request gets the fixed 30-second timeout;
the `Authorization: Bearer <token>` header AND the fixed user-agent header
are both attached exactly when the configured token is non-empty (they are
set together in the same non-empty-token branch of `prepare_request`). -/
theorem claim_C3_prepare_request :
    ∀ (sdk : LlmSDK) (req : HttpRequest), req.headers = [] →
      ((sdk.prepare_request req).timeout = some 30) ∧
      (hasHeader (sdk.prepare_request req) "authorization" = !sdk.token.isEmpty) ∧
      (hasHeader (sdk.prepare_request req) "user-agent" = !sdk.token.isEmpty) ∧
      (sdk.token.isEmpty = false →
        findHeader (sdk.prepare_request req) "authorization" =
          some ("Bearer " ++ sdk.token) ∧
        findHeader (sdk.prepare_request req) "user-agent" = some userAgent) := by
  intro sdk req h
  by_cases ht : sdk.token.isEmpty <;>
    simp [LlmSDK.prepare_request, hasHeader, findHeader, h, ht, TIMEOUT]

/-- Witness for C3 at a concrete client and request: the hypothesis (a
request with no pre-attached headers) holds for `sampleRequest`, and the
prepared request carries the timeout, bearer auth and the user-agent. -/
theorem claim_C3_prepare_request_witness :
    sampleRequest.headers = [] ∧
    ((LlmSDK.new "sk-123").prepare_request sampleRequest).timeout = some 30 ∧
    findHeader ((LlmSDK.new "sk-123").prepare_request sampleRequest) "authorization" =
      some "Bearer sk-123" ∧
    findHeader ((LlmSDK.new "sk-123").prepare_request sampleRequest) "user-agent" =
      some userAgent :=
  ⟨rfl,
   (claim_C3_prepare_request (LlmSDK.new "sk-123") sampleRequest rfl).1,
   ((claim_C3_prepare_request (LlmSDK.new "sk-123") sampleRequest rfl).2.2.2 rfl).1,
   ((claim_C3_prepare_request (LlmSDK.new "sk-123") sampleRequest rfl).2.2.2 rfl).2⟩

/-- C5: `WhisperRequest::into_form` produces a form with the file bytes as a
part named "file" with filename "file.mp3" and MIME type "audio/mp3",
always-present `model` and `response_format` text fields, a `language` text
field exactly when the request is a transcription with a language set (never
for a translation), `prompt`/`temperature` exactly when present; and
`into_request` POSTs the form to `{base_url}/audio/transcriptions` or
`{base_url}/audio/translations` selected by `request_type` alone. -/
theorem claim_C5_whisper_form :
    ∀ (r : WhisperRequest) (base_url : String),
      FormPart.filePart "file" "file.mp3" "audio/mp3" r.file ∈ r.into_form ∧
      findTextField "model" r.into_form = some r.model.wire ∧
      findTextField "response_format" r.into_form = some r.response_format.wire ∧
      (hasTextField r.into_form "language" = true ↔
        (r.request_type = .Transcription ∧ r.language.isSome = true)) ∧
      (∀ lang, r.request_type = .Transcription → r.language = some lang →
        findTextField "language" r.into_form = some lang) ∧
      (hasTextField r.into_form "prompt" = true ↔ r.prompt.isSome = true) ∧
      (hasTextField r.into_form "temperature" = true ↔ r.temperature.isSome = true) ∧
      (r.into_request base_url).method = "POST" ∧
      (r.into_request base_url).body = .multipartBody r.into_form ∧
      ((r.into_request base_url).url =
        match r.request_type with
        | .Transcription => base_url ++ "/audio/transcriptions"
        | .Translation => base_url ++ "/audio/translations") := by
  intro r base_url
  obtain ⟨wf, wm, wl, wp, wrf, wt, wrt⟩ := r
  cases wrt <;> cases wl <;> cases wp <;> cases wt <;>
    simp [WhisperRequest.into_form, WhisperRequest.into_request,
      findTextField, hasTextField]

/-- Witness for C5 at a concrete transcription request with a language, a
prompt and no temperature. -/
theorem claim_C5_whisper_form_witness :
    FormPart.filePart "file" "file.mp3" "audio/mp3" [7, 8] ∈
      (WhisperRequest.mk [7, 8] .Whisper1 (some "en") (some "hi") .Json none
        .Transcription).into_form ∧
    findTextField "language"
      (WhisperRequest.mk [7, 8] .Whisper1 (some "en") (some "hi") .Json none
        .Transcription).into_form = some "en" ∧
    hasTextField
      (WhisperRequest.mk [7, 8] .Whisper1 (some "en") (some "hi") .Json none
        .Transcription).into_form "prompt" = true :=
  ⟨(claim_C5_whisper_form
      (WhisperRequest.mk [7, 8] .Whisper1 (some "en") (some "hi") .Json none
        .Transcription) "b").1,
   (claim_C5_whisper_form
      (WhisperRequest.mk [7, 8] .Whisper1 (some "en") (some "hi") .Json none
        .Transcription) "b").2.2.2.2.1 "en" rfl rfl,
   ((claim_C5_whisper_form
      (WhisperRequest.mk [7, 8] .Whisper1 (some "en") (some "hi") .Json none
        .Transcription) "b").2.2.2.2.2.1).mpr rfl⟩

/-- C6: for the whisper operation on a success status, if the request's
`response_format` is the `Json` variant the result is parsed from the body as
JSON and its `text` field equals the body's "text" key; for every other
format the result's `text` field equals the raw response body verbatim. -/
theorem claim_C6_whisper_response_parsing :
    ∀ (res : HttpResponse),
      is_client_error res.status = false → is_server_error res.status = false →
      (∀ fields s, res.bodyJson = some (.obj fields) →
        findKey "text" fields = some (.str s) →
        LlmSDK.whisper .Json res = .ok { text := s }) ∧
      (∀ fmt, fmt ≠ WhisperResponseFormat.Json →
        LlmSDK.whisper fmt res = .ok { text := res.body }) := by
  intro res hc hs
  constructor
  · intro fields s hj htext
    simp [LlmSDK.whisper, send_and_log_ok res hc hs, hj, parseWhisperResponse, htext,
      Json.asString]
  · intro fmt hfmt
    simp [LlmSDK.whisper, send_and_log_ok res hc hs, hfmt]

/-- A concrete whisper success response whose body is the JSON object
`\x7b"text":"hello"\x7d`. -/
def whisperJsonResponse : HttpResponse :=
  { status := 200,
    body := "\x7b\"text\":\"hello\"\x7d",
    bodyJson := some (.obj [("text", .str "hello")]) }

/-- Witness for C6 at `whisperJsonResponse`: with format `Json` the result's
text is the body's "text" key; with format `Text` it is the raw body. -/
theorem claim_C6_whisper_response_parsing_witness :
    LlmSDK.whisper .Json whisperJsonResponse = .ok { text := "hello" } ∧
    LlmSDK.whisper .Text whisperJsonResponse =
      .ok { text := "\x7b\"text\":\"hello\"\x7d" } :=
  ⟨(claim_C6_whisper_response_parsing whisperJsonResponse rfl rfl).1 _ "hello" rfl rfl,
   (claim_C6_whisper_response_parsing whisperJsonResponse rfl rfl).2 .Text (by decide)⟩

/-- An HTTP 400 (client error) response whose body happens to be valid
`CreateImageResponse` JSON. -/
def errorStatusImageBody : HttpResponse :=
  { status := 400,
    body := "\x7b\"created\":1,\"data\":[]\x7d",
    bodyJson := some (.obj [("created", .num 1), ("data", .arr [])]) }

/-- C1 (failing input): `LlmSDK::create_image` sends with plain `send()`
instead of `send_and_log()` (src/lib.rs:103-107), so the HTTP status is never
inspected: on a 400 response whose body parses as `CreateImageResponse` the
caller receives a typed success value, while the uniform error path the claim
(and the other four operations) prescribe would have failed the call with the
body text. -/
theorem claim_C1_create_image_ignores_status :
    LlmSDK.create_image errorStatusImageBody = .ok { created := 1, data := [] } ∧
    send_and_log errorStatusImageBody =
      .error ("API failed: " ++ "\x7b\"created\":1,\"data\":[]\x7d") ∧
    LlmSDK.embedding errorStatusImageBody =
      .error ("API failed: " ++ "\x7b\"created\":1,\"data\":[]\x7d") := by
  refine ⟨?_, rfl, rfl⟩
  simp [LlmSDK.create_image, errorStatusImageBody, parseCreateImageResponse, findKey,
    Json.asNat, List.mapM, List.mapM.loop]

/-- A success-status response whose body is not valid JSON. -/
def nonJsonOkResponse : HttpResponse :=
  { status := 200, body := "raw-bytes-not-json", bodyJson := none }

/-- C2 counterexample: on a 200 response whose body is not valid JSON, the
embedding operation succeeds with the RAW body bytes — no JSON
deserialization happens — while the spec-mandated typed operation
(`embedding_fromSpec`, full deserialization into `EmbeddingResponse`) fails;
so the embedding operation does not return the fully JSON-deserialized typed
response value the claim states. -/
theorem claim_C2_counterexample :
    LlmSDK.embedding nonJsonOkResponse = .ok "raw-bytes-not-json" ∧
    embedding_fromSpec nonJsonOkResponse = .error "error decoding response body" := by
  constructor <;> rfl

/-- C2 amended: raw unparsed bytes are returned not only for binary media
(speech) but ALSO for the embedding operation — `LlmSDK::embedding` returns
the raw response body (`Result<Bytes>`), never a deserialized
`EmbeddingResponse`; chat completion (on valid JSON) does return the parsed
typed value. -/
theorem claim_C2_embedding_returns_raw_bytes :
    ∀ (res : HttpResponse),
      is_client_error res.status = false → is_server_error res.status = false →
      LlmSDK.embedding res = .ok res.body ∧
      LlmSDK.speech res = .ok res.body ∧
      (∀ j, res.bodyJson = some j →
        LlmSDK.chat_completion res = .ok { payload := j }) := by
  intro res hc hs
  refine ⟨?_, ?_, ?_⟩
  · simp [LlmSDK.embedding, send_and_log_ok res hc hs]
  · simp [LlmSDK.speech, send_and_log_ok res hc hs]
  · intro j hj
    simp [LlmSDK.chat_completion, send_and_log_ok res hc hs, hj]

/-- Witness for C2's amended theorem at `nonJsonOkResponse`. -/
theorem claim_C2_embedding_returns_raw_bytes_witness :
    is_client_error 200 = false ∧ is_server_error 200 = false ∧
    LlmSDK.embedding nonJsonOkResponse = .ok "raw-bytes-not-json" ∧
    LlmSDK.speech nonJsonOkResponse = .ok "raw-bytes-not-json" :=
  ⟨rfl, rfl,
   (claim_C2_embedding_returns_raw_bytes nonJsonOkResponse rfl rfl).1,
   (claim_C2_embedding_returns_raw_bytes nonJsonOkResponse rfl rfl).2.1⟩

theorem retryRun_spec (t : ℕ → ℕ) :
    ∀ (budget attempt : ℕ),
      (∀ i, i < budget → isTransientStatus (t (attempt + i)) = true) →
      isTransientStatus (t (attempt + budget)) = false →
      retryRun t budget attempt = (attempt + budget + 1, t (attempt + budget)) := by
  intro budget
  induction budget with
  | zero =>
    intro attempt _ hlast
    simp only [Nat.add_zero] at hlast
    simp [retryRun, hlast]
  | succ b ih =>
    intro attempt hall hlast
    have h0 : isTransientStatus (t attempt) = true := by
      simpa using hall 0 (Nat.succ_pos b)
    have hrec := ih (attempt + 1)
      (fun i hi => by
        have := hall (i + 1) (by omega)
        simpa [Nat.add_assoc, Nat.add_comm 1 i] using this)
      (by
        have : attempt + 1 + b = attempt + (b + 1) := by omega
        rwa [this])
    have hidx : attempt + 1 + b = attempt + (b + 1) := by omega
    simp only [retryRun, h0, if_true]
    rw [hrec, hidx]

/-- C4 counterexample: a client built by `LlmSDK::new` (the builder's
`default_client`) does NOT retry — on the spec's mock transport (500 three
times, then 200) it performs a single attempt and ends on the 500, not the
claimed `max_retries + 1 = 4` attempts ending on the 200. -/
theorem claim_C4_counterexample :
    (LlmSDK.new "token").client.dispatch mockTransport = (1, 500) ∧
    (LlmSDK.new "token").client.dispatch mockTransport ≠ (4, 200) := by
  constructor
  · rfl
  · decide

/-- C4 amended: for a client built by `LlmSDK::new1`, a transient (5xx)
failure is retried with exponentially increasing backoff delays up to the
policy's maximum retry count: on a transport producing `n` transient 500s
and then a 200, the dispatch performs exactly `n + 1` attempts and ends on
the success status.  Clients built by `LlmSDK::new` (the builder default) do
not retry, per the source's own fixme note. -/
theorem claim_C4_new1_retries_with_backoff :
    ∀ (base_url token : String) (n : ℕ) (t : ℕ → ℕ),
      (∀ i, i < n → t i = 500) → t n = 200 →
      (LlmSDK.new1 base_url token n).client.dispatch t = (n + 1, 200) ∧
      (∀ m k, m < k → backoffDelay m < backoffDelay k) ∧
      (∀ (tok : String) (t2 : ℕ → ℕ), (LlmSDK.new tok).client.dispatch t2 = (1, t2 0)) := by
  intro base_url token n t hfail hok
  refine ⟨?_, ?_, fun tok t2 => rfl⟩
  · have hrun := retryRun_spec t n 0
      (fun i hi => by simp [isTransientStatus, hfail i hi])
      (by simp [isTransientStatus, hok])
    show retryRun t n 0 = (n + 1, 200)
    rw [hrun]
    simp [hok]
  · intro m k hmk
    exact Nat.pow_lt_pow_right (by norm_num) hmk

/-- Witness for C4's amended theorem: the spec's mock transport (500, 500,
500, 200) against `new1` with `max_retries = 3` yields exactly 4 attempts and
the 200, and the backoff delay grows between the first and second retries. -/
theorem claim_C4_new1_retries_with_backoff_witness :
    mockTransport 3 = 200 ∧
    (LlmSDK.new1 "https://api.openai.com/v1" "tok" 3).client.dispatch mockTransport =
      (4, 200) ∧
    backoffDelay 0 < backoffDelay 1 :=
  ⟨rfl,
   (claim_C4_new1_retries_with_backoff "https://api.openai.com/v1" "tok" 3 mockTransport
      (fun i hi => by simp [mockTransport, hi]) rfl).1,
   (claim_C4_new1_retries_with_backoff "https://api.openai.com/v1" "tok" 3 mockTransport
      (fun i hi => by simp [mockTransport, hi]) rfl).2.1 0 1 (by norm_num)⟩

end LlmSdk
